import Mathlib

/-!
Shallow embedding of the todo-app web server (server.js, cookie-identity
version) and its SQL data layer, together with proofs checking the
natural-language specification against it.

Modelling conventions:
* The two tables `users` and `tasks` are lists of rows inside a `DB` state;
  `nextUserId` models the `SERIAL` sequence of `users.id`.
* Each Express route handler becomes a Lean function of the request data,
  the database state, and an `Option DbErr` argument standing for the
  outcome of its single database call: `some e` means the driver rejected
  the query with error `e` (the query does not run), `none` means the query
  ran normally.  Handlers that mutate the database return the new `DB`
  together with the `Response`; read-only handlers return just a `Response`.
* SQL `NULL` is `Option.none`; the SQL comparison `user_id = $2` is false
  whenever either side is NULL, as in PostgreSQL.
* In `getTasks` the SQL is `ORDER BY $1 ASC` where `$1` is a *bound
  parameter* (`sort_by || 'due'`).  PostgreSQL treats a parameter in
  `ORDER BY` as a constant value, not as a column reference, so every row
  has the same sort key and no reordering by the named column happens; the
  embedding keeps the rows in table order (`sortByConstant`).
* The identity cookie is modelled at the level of `JSON.parse` outcomes
  (`UserCookie`), since `JSON.parse` is a platform builtin: `absent` is a
  missing cookie, `emptyStr` the empty-string cookie (falsy, short-circuits
  before parsing), `malformed s` a non-empty string rejected by
  `JSON.parse`, and `value j` a string parsing to the JSON value `j`.
-/

/-- A row of the `users` table: `id SERIAL PRIMARY KEY`,
`username VARCHAR(100) NOT NULL UNIQUE`. -/
structure UserRow where
  id : Nat
  username : String
deriving DecidableEq, Repr

/-- A row of the `tasks` table.  `user_id` was added by the ownership
migration without `NOT NULL`, hence `Option Nat`.  The `due` date is
modelled as an ordinal day number, preserving the date order; it is
nullable too, since the add-task INSERT names no `due` column and leaves
the inserted row's `due` at its NULL default. -/
structure TaskRow where
  id : Nat
  title : String
  description : String
  category : String
  contact : String
  status : String
  due : Option Nat
  user_id : Option Nat
deriving DecidableEq, Repr

/-- Database state: the two tables plus the `users.id` and `tasks.id`
`SERIAL` sequence counters. -/
structure DB where
  users : List UserRow
  tasks : List TaskRow
  nextUserId : Nat
  nextTaskId : Nat
deriving DecidableEq, Repr

/-- Well-formedness maintained by the schema: `tasks.id` and `users.id` are
primary keys (no duplicates) and `users.username` is UNIQUE. -/
def DB.WF (db : DB) : Prop :=
  (db.tasks.map (fun t => t.id)).Nodup ∧
  (db.users.map (fun u => u.id)).Nodup ∧
  (db.users.map (fun u => u.username)).Nodup

instance (db : DB) : Decidable db.WF := by
  unfold DB.WF; infer_instance

/-- JSON values, as produced by `JSON.parse` / consumed by
`JSON.stringify`.  Numbers of interest in this app are the nonnegative
`SERIAL` ids, modelled as `Nat`. -/
inductive Json where
  | jnull : Json
  | jbool : Bool → Json
  | jnum : Nat → Json
  | jstr : String → Json
  | jobj : List (String × Json) → Json
deriving Repr

/-- JavaScript truthiness of a decoded JSON value: `null`, `false`, `0`
and `""` are falsy; every object is truthy. -/
def Json.truthy : Json → Bool
  | .jnull => false
  | .jbool b => b
  | .jnum n => n != 0
  | .jstr s => s != ""
  | .jobj _ => true

/-- Field access `j.k` on a decoded JSON value (app-produced objects have
distinct keys, so taking the first binding is exact for them). -/
def Json.field : Json → String → Option Json
  | .jobj fs, k => (fs.find? (fun f => f.fst == k)).map (fun f => f.snd)
  | _, _ => none

/-- The numeric `id` property of the request user object
(`request.user.id`); `none` when the property is absent or not a number,
i.e. the JS value is `undefined` and reaches SQL as NULL. -/
def jsUserId (j : Json) : Option Nat :=
  match j.field "id" with
  | some (.jnum n) => some n
  | _ => none

/-- `JSON.stringify({id, username})` of a user row, at the value level. -/
def userJson (u : UserRow) : Json :=
  .jobj [("id", .jnum u.id), ("username", .jstr u.username)]

/-- Effect of a handler on the `user` cookie. -/
inductive CookieAction where
  | keep : CookieAction
  | set : Json → CookieAction
  | clear : CookieAction
deriving Repr

/-- Error value passed to `handleError`: either a plain JS string (such as
`'Task Not Found'`) or the raw database error object. -/
inductive ErrVal where
  | str : String → ErrVal
  | db : String → ErrVal
deriving DecidableEq, Repr

/-- A database-driver error, carried as its message. -/
abbrev DbErr := String

/-- View models handed to `response.render`. -/
inductive ViewModel where
  | tasksList : List TaskRow → ViewModel
  | taskDetail : TaskRow → ViewModel
  | editView : Option TaskRow → ViewModel
  | errorView : ErrVal → ViewModel
  | noModel : ViewModel
deriving Repr

/-- What was sent to the client, if anything. -/
inductive Sent where
  | render : Nat → String → ViewModel → Sent
  | redirect : String → Sent
  | text : Nat → String → Sent
deriving Repr

/-- Outcome of a handler for one request.  `sent = none` means no response
was ever written (an escaped promise rejection, recorded in `escaped`). -/
structure Response where
  cookie : CookieAction
  sent : Option Sent
  escaped : Option ErrVal
deriving Repr

/-- A normal response: no cookie change, nothing escaped. -/
def ok (s : Sent) : Response := ⟨CookieAction.keep, some s, none⟩

/-- `handleError(err, response)`: status 500, generic error view holding
the raw error. -/
def handleError (e : ErrVal) : Response :=
  ok (.render 500 "pages/error-view" (.errorView e))

/-- SQL predicate `user_id = $2` with `$2 := request.user.id`: false when
either side is NULL. -/
def taskOwnedBy (uid : Option Nat) (t : TaskRow) : Bool :=
  match uid, t.user_id with
  | some u, some w => u == w
  | _, _ => false

/-- Ordering by a bound parameter: the key is the same constant for every
row, so the row order is unchanged (PostgreSQL parameters in `ORDER BY`
are values, not column references). -/
def sortByConstant (_key : String) (rows : List TaskRow) : List TaskRow :=
  rows

/-- Result rows of the `getTasks` query
`SELECT * FROM Tasks WHERE user_id = $2 ORDER BY $1 ASC`
with parameters `[sort_by || 'due', request.user.id]`. -/
def getTasksRows (db : DB) (uid : Option Nat) (sort_by : Option String) :
    List TaskRow :=
  sortByConstant (sort_by.getD "due") (db.tasks.filter (taskOwnedBy uid))

/-- `GET /` handler `getTasks`. -/
def getTasks (db : DB) (uid : Option Nat) (sort_by : Option String)
    (err? : Option DbErr) : Response :=
  match err? with
  | some e => handleError (.db e)
  | none => ok (.render 200 "index" (.tasksList (getTasksRows db uid sort_by)))

/-- Result rows of the `getOneTask` query
`SELECT * FROM Tasks WHERE id = $1 AND user_id = $2 LIMIT 1`. -/
def getOneTaskRows (db : DB) (uid : Option Nat) (tid : Nat) : List TaskRow :=
  (db.tasks.filter (fun t => t.id == tid && taskOwnedBy uid t)).take 1

/-- `GET /tasks/:task_id` handler `getOneTask`. -/
def getOneTask (db : DB) (uid : Option Nat) (tid : Nat)
    (err? : Option DbErr) : Response :=
  match err? with
  | some e => handleError (.db e)
  | none =>
    match getOneTaskRows db uid tid with
    | [] => handleError (.str "Task Not Found")
    | t :: _ => ok (.render 200 "pages/detail-view" (.taskDetail t))

/-- The five form fields of the add/update flows. -/
structure TaskFields where
  title : String
  description : String
  category : String
  contact : String
  status : String
deriving DecidableEq, Repr

/-- `POST /add` handler `addTask`:
`INSERT INTO tasks (title, description, category, contact, status, user_id)
VALUES ($1, $2, $3, $4, $5, $6) RETURNING Id` with `$6 := request.user.id`.
The inserted row takes the next `tasks.id` sequence value, its `due` stays
at the NULL column default, and the client is redirected to the returned
id's detail view; a driver error is recovered by `.catch(handleError)`. -/
def addTask (db : DB) (uid : Option Nat) (f : TaskFields)
    (err? : Option DbErr) : DB × Response :=
  match err? with
  | some e => (db, handleError (.db e))
  | none =>
    let row : TaskRow := ⟨db.nextTaskId, f.title, f.description, f.category,
                          f.contact, f.status, none, uid⟩
    ({ db with tasks := db.tasks ++ [row], nextTaskId := db.nextTaskId + 1 },
     ok (.redirect ("/tasks/" ++ toString db.nextTaskId)))

/-- Effect of the `UPDATE Tasks SET ... WHERE Id = $6 AND user_id = $7`
statement on the tasks table. -/
def updateTasksDb (db : DB) (uid : Option Nat) (tid : Nat)
    (f : TaskFields) : DB :=
  { db with tasks := db.tasks.map (fun t =>
      if t.id == tid && taskOwnedBy uid t then
        { t with title := f.title, description := f.description,
                 category := f.category, contact := f.contact,
                 status := f.status }
      else t) }

/-- `PUT /tasks/:task_id` handler `updateOneTask`.  Its `.catch(next)`
routes a driver error into the error-handler middleware, which calls
`handleError`. -/
def updateOneTask (db : DB) (uid : Option Nat) (tid : Nat)
    (f : TaskFields) (err? : Option DbErr) : DB × Response :=
  match err? with
  | some e => (db, handleError (.db e))
  | none => (updateTasksDb db uid tid f,
             ok (.redirect ("/tasks/" ++ toString tid)))

/-- `DELETE /tasks/:task_id` handler `deleteOneTask`:
`DELETE FROM Tasks WHERE Id = $1 AND user_id = $2`, then redirect to `/`. -/
def deleteOneTask (db : DB) (uid : Option Nat) (tid : Nat)
    (err? : Option DbErr) : DB × Response :=
  match err? with
  | some e => (db, handleError (.db e))
  | none => ({ db with tasks :=
                db.tasks.filter (fun t => !(t.id == tid && taskOwnedBy uid t)) },
             ok (.redirect "/"))

/-- `GET /tasks/:task_id/edit` handler `editOneTask`:
`SELECT * FROM Tasks WHERE Id = $1 AND user_id = $2`, renders
`pages/edit-view` with `results.rows[0]` (possibly `undefined`).  The
promise chain has no `.catch`, so a driver error escapes and no response
is written. -/
def editOneTask (db : DB) (uid : Option Nat) (tid : Nat)
    (err? : Option DbErr) : Response :=
  match err? with
  | some e => ⟨CookieAction.keep, none, some (.db e)⟩
  | none =>
    ok (.render 200 "pages/edit-view"
      (.editView ((db.tasks.filter
        (fun t => t.id == tid && taskOwnedBy uid t)).head?)))

/-- `POST /register` handler `createUser`:
`INSERT INTO users (username) VALUES ($1) RETURNING id, username;`.
A duplicate username violates the UNIQUE constraint and surfaces as a
database error.  On success the returned row is stringified into the
`user` cookie and the client is redirected to `/`. -/
def createUser (db : DB) (username : String) (err? : Option DbErr) :
    DB × Response :=
  match err? with
  | some e => (db, handleError (.db e))
  | none =>
    if db.users.any (fun u => u.username == username) then
      (db, handleError (.db "duplicate key value violates unique constraint"))
    else
      let row : UserRow := ⟨db.nextUserId, username⟩
      ({ db with users := db.users ++ [row], nextUserId := db.nextUserId + 1 },
       ⟨CookieAction.set (userJson row), some (.redirect "/"), none⟩)

/-- `POST /login` handler `doLogin`:
`SELECT id, username FROM users WHERE username = $1;`, takes `rows[0]`.
Unknown username: status 400 error view, no cookie.  Known username:
cookie set to the row, redirect `/`. -/
def doLogin (db : DB) (username : String) (err? : Option DbErr) : Response :=
  match err? with
  | some e => handleError (.db e)
  | none =>
    match db.users.find? (fun u => u.username == username) with
    | none =>
      ⟨CookieAction.keep,
       some (.render 400 "pages/error-view" (.errorView (.str "User not found!"))),
       none⟩
    | some u => ⟨CookieAction.set (userJson u), some (.redirect "/"), none⟩

/-- `POST /logout` handler `doLogout`: clears the cookie, redirects home. -/
def doLogout : Response := ⟨CookieAction.clear, some (.redirect "/"), none⟩

/-- Parse outcome of the `user` cookie on an incoming request.  `absent`:
no cookie; `emptyStr`: empty string (falsy, never parsed); `malformed s`:
a non-empty string that `JSON.parse` rejects; `value j`: a string parsing
to `j`. -/
inductive UserCookie where
  | absent : UserCookie
  | emptyStr : UserCookie
  | malformed : String → UserCookie
  | value : Json → UserCookie

/-- Output of the identity middleware for one request. -/
structure MwResult where
  user : Json
  locals : Json
  warned : Bool
  nextCalled : Bool

/-- The identity middleware (`app.use` with `request.cookies`):
`request.user = user && JSON.parse(user) || {}` inside `try`, the `catch`
logs a warning and sets `request.user = {}`; then
`response.locals.user = request.user` and `next()` on every path. -/
def identityMiddleware : UserCookie → MwResult
  | .absent => ⟨.jobj [], .jobj [], false, true⟩
  | .emptyStr => ⟨.jobj [], .jobj [], false, true⟩
  | .malformed _ => ⟨.jobj [], .jobj [], true, true⟩
  | .value j =>
    let u := if j.truthy then j else .jobj []
    ⟨u, u, false, true⟩

/-- HTTP method after method-override resolution. -/
inductive Method where
  | GET : Method
  | POST : Method
  | PUT : Method
  | DELETE : Method
deriving DecidableEq, Repr

/-- One tag per route registration in `server.js`, in source order, plus
the `app.get('*')` catch-all. -/
inductive RouteTag where
  | rootR : RouteTag
  | addFormR : RouteTag
  | addR : RouteTag
  | oneTaskR : RouteTag
  | delTaskR : RouteTag
  | putTaskR : RouteTag
  | editTaskR : RouteTag
  | booksR : RouteTag
  | regFormR : RouteTag
  | regR : RouteTag
  | loginFormR : RouteTag
  | loginR : RouteTag
  | logoutR : RouteTag
  | catchAllR : RouteTag
deriving DecidableEq, Repr

/-- Whether a registered route matches a request, with the path as its
segment list.  `:task_id` matches any single segment; `app.get('*')`
matches every path but only the GET method. -/
def routeMatch : RouteTag → Method → List String → Bool
  | .rootR, .GET, [] => true
  | .addFormR, .GET, ["add"] => true
  | .addR, .POST, ["add"] => true
  | .oneTaskR, .GET, ["tasks", _] => true
  | .delTaskR, .DELETE, ["tasks", _] => true
  | .putTaskR, .PUT, ["tasks", _] => true
  | .editTaskR, .GET, ["tasks", _, "edit"] => true
  | .booksR, .GET, ["books"] => true
  | .regFormR, .GET, ["register"] => true
  | .regR, .POST, ["register"] => true
  | .loginFormR, .GET, ["login"] => true
  | .loginR, .POST, ["login"] => true
  | .logoutR, .POST, ["logout"] => true
  | .catchAllR, .GET, _ => true
  | _, _, _ => false

/-- Route registrations in source order. -/
def routeOrder : List RouteTag :=
  [.rootR, .addFormR, .addR, .oneTaskR, .delTaskR, .putTaskR, .editTaskR,
   .booksR, .regFormR, .regR, .loginFormR, .loginR, .logoutR, .catchAllR]

/-- Express dispatch: the first registered route matching the request, if
any; `none` means the framework default response takes over. -/
def dispatch (m : Method) (p : List String) : Option RouteTag :=
  routeOrder.find? (fun r => routeMatch r m p)

/-- Whether some route other than the catch-all matches. -/
def matchesDefinedRoute (m : Method) (p : List String) : Bool :=
  (routeOrder.filter (fun r => !(r == RouteTag.catchAllR))).any
    (fun r => routeMatch r m p)

/-- The catch-all handler body:
`(req, res) => res.status(404).send('This route does not exist')`. -/
def catchAllResponse : Response :=
  ok (.text 404 "This route does not exist")

/-- Task 1 of the witness database, owned by user 1. -/
def buyMilk : TaskRow :=
  ⟨1, "Buy milk", "d1", "c1", "k1", "open", some 20210910, some 1⟩

/-- Task 3 of the witness database, owned by user 2. -/
def mowLawn : TaskRow :=
  ⟨3, "Mow lawn", "d3", "c3", "k3", "open", some 20210911, some 2⟩

/-- Concrete database used by witnesses: user `keith` owns task 1, user
`dana` owns task 3. -/
def exDb : DB :=
  { users := [⟨1, "keith"⟩, ⟨2, "dana"⟩],
    tasks := [buyMilk, mowLawn],
    nextUserId := 3,
    nextTaskId := 4 }

/-- Concrete database whose two tasks of user 1 sit in table order with
descending due dates. -/
def exDb2 : DB :=
  { users := [⟨1, "keith"⟩],
    tasks := [⟨1, "Late", "", "", "", "open", some 20210902, some 1⟩,
              ⟨2, "Early", "", "", "", "open", some 20210901, some 1⟩],
    nextUserId := 2,
    nextTaskId := 3 }

/-- Comparison of two nullable `due` values under `ORDER BY due ASC`,
where PostgreSQL places NULLs last. -/
def dueLe : Option Nat → Option Nat → Bool
  | some a, some b => a ≤ b
  | some _, none => true
  | none, some _ => false
  | none, none => true

/-- Whether a task list is ascending in the `due` column. -/
def dueAscending : List TaskRow → Bool
  | [] => true
  | [_] => true
  | a :: b :: r => dueLe a.due b.due && dueAscending (b :: r)

/-- A row accepted by the ownership filter for identity `v` is owned by
`v`. -/
theorem taskOwnedBy_eq_some {v : Nat} {t : TaskRow}
    (h : taskOwnedBy (some v) t = true) : t.user_id = some v := by
  unfold taskOwnedBy at h
  cases hw : t.user_id with
  | none => rw [hw] at h; exact absurd h (by simp)
  | some w => rw [hw] at h; simp at h; rw [h]

/-- A task owned by `u` is rejected by the ownership filter for any other
identity `v`. -/
theorem taskOwnedBy_ne {u v : Nat} {t : TaskRow} (hne : v ≠ u)
    (h : t.user_id = some u) : taskOwnedBy (some v) t = false := by
  unfold taskOwnedBy
  rw [h]
  simpa using hne

/-- Claim C1: ownership isolation.  A task owned by identity `u` is never
returned to a different identity `v`: the listing query returns only rows
owned by `v`, the owned task is not among them, and single-task retrieval
of it by `v` hits the not-found branch. -/
theorem c1_ownership_isolation (db : DB) (hwf : db.WF) (u v : Nat)
    (hne : v ≠ u) (t : TaskRow) (ht : t ∈ db.tasks)
    (hown : t.user_id = some u) (sort_by : Option String) :
    t ∉ getTasksRows db (some v) sort_by ∧
    (∀ r ∈ getTasksRows db (some v) sort_by, r.user_id = some v) ∧
    getOneTask db (some v) t.id none = handleError (.str "Task Not Found") := by
  refine ⟨?_, ?_, ?_⟩
  · intro hmem
    rw [getTasksRows, sortByConstant, List.mem_filter] at hmem
    rw [taskOwnedBy_ne hne hown] at hmem
    exact absurd hmem.2 (by simp)
  · intro r hr
    rw [getTasksRows, sortByConstant, List.mem_filter] at hr
    exact taskOwnedBy_eq_some hr.2
  · have hrows : getOneTaskRows db (some v) t.id = [] := by
      rw [getOneTaskRows]
      have hfil : db.tasks.filter
          (fun x => x.id == t.id && taskOwnedBy (some v) x) = [] := by
        rw [List.filter_eq_nil_iff]
        intro x hx hpx
        simp only [Bool.and_eq_true, beq_iff_eq] at hpx
        have hxt : x = t :=
          List.inj_on_of_nodup_map hwf.1 hx ht hpx.1
        rw [hxt, taskOwnedBy_ne hne hown] at hpx
        exact absurd hpx.2 (by simp)
      rw [hfil]
      rfl
    rw [getOneTask, hrows]

/-- Witness for C1 at the concrete database: identity 2 never sees task 1
of identity 1. -/
theorem c1_witness :
    buyMilk ∉ getTasksRows exDb (some 2) none ∧
    (∀ r ∈ getTasksRows exDb (some 2) none, r.user_id = some 2) ∧
    getOneTask exDb (some 2) buyMilk.id none =
      handleError (.str "Task Not Found") :=
  c1_ownership_isolation exDb (by decide) 1 2 (by decide) buyMilk
    (by decide) (by decide) none

/-- Claim C3: single task retrieval.  A driver error goes through
`handleError` (status 500, `pages/error-view`); when no task with the
given id belongs to the current identity, the handler reports not-found
through that same `handleError` path; when such a task exists, its row is
rendered in the detail view. -/
theorem c3_get_one_task (db : DB) (hwf : db.WF) (uid : Option Nat)
    (tid : Nat) :
    (∀ e : DbErr, getOneTask db uid tid (some e) = handleError (.db e)) ∧
    ((∀ t ∈ db.tasks, ¬(t.id = tid ∧ taskOwnedBy uid t = true)) →
      getOneTask db uid tid none = handleError (.str "Task Not Found")) ∧
    (∀ t, t ∈ db.tasks → t.id = tid → taskOwnedBy uid t = true →
      getOneTask db uid tid none =
        ok (.render 200 "pages/detail-view" (.taskDetail t))) := by
  refine ⟨fun e => rfl, ?_, ?_⟩
  · intro hnone
    have hrows : getOneTaskRows db uid tid = [] := by
      rw [getOneTaskRows]
      have hfil : db.tasks.filter
          (fun t => t.id == tid && taskOwnedBy uid t) = [] := by
        rw [List.filter_eq_nil_iff]
        intro x hx hpx
        simp only [Bool.and_eq_true, beq_iff_eq] at hpx
        exact hnone x hx hpx
      rw [hfil]
      rfl
    rw [getOneTask, hrows]
  · intro t ht hid hown
    have hp : (fun x : TaskRow => x.id == tid && taskOwnedBy uid x) t = true := by
      simp only [Bool.and_eq_true, beq_iff_eq]
      exact ⟨hid, hown⟩
    have hmem : t ∈ db.tasks.filter
        (fun x => x.id == tid && taskOwnedBy uid x) :=
      List.mem_filter.mpr ⟨ht, hp⟩
    obtain ⟨y, ys, hf⟩ :=
      List.exists_cons_of_ne_nil (List.ne_nil_of_mem hmem)
    have hy : y ∈ db.tasks.filter
        (fun x => x.id == tid && taskOwnedBy uid x) := by
      rw [hf]; exact List.mem_cons_self y ys
    have hy' := List.mem_filter.mp hy
    have hyid : y.id = tid := by
      have := hy'.2
      simp only [Bool.and_eq_true, beq_iff_eq] at this
      exact this.1
    have hyt : y = t :=
      List.inj_on_of_nodup_map hwf.1 hy'.1 ht (by rw [hyid, hid])
    have hrows : getOneTaskRows db uid tid = [t] := by
      rw [getOneTaskRows, hf, hyt]
      rfl
    rw [getOneTask, hrows]

/-- Witness for C3 at the concrete database: owner 1 sees task 1's detail
view; identity 2 gets the not-found error view for the same id. -/
theorem c3_witness :
    getOneTask exDb (some 1) 1 none =
      ok (.render 200 "pages/detail-view" (.taskDetail buyMilk)) ∧
    getOneTask exDb (some 2) 1 none =
      handleError (.str "Task Not Found") :=
  ⟨(c3_get_one_task exDb (by decide) (some 1) 1).2.2 buyMilk (by decide)
     (by decide) (by decide),
   (c3_get_one_task exDb (by decide) (some 2) 1).2.1 (by decide)⟩

/-- Mapping a function that fixes every element of a list leaves the list
unchanged. -/
theorem list_map_fix {α : Type} (f : α → α) :
    ∀ l : List α, (∀ a ∈ l, f a = a) → l.map f = l
  | [], _ => rfl
  | a :: l, h => by
    rw [List.map_cons, h a (List.mem_cons_self a l),
        list_map_fix f l (fun x hx => h x (List.mem_cons_of_mem a hx))]

/-- Claim C4: when no row matches the id plus ownership filter, update and
delete leave the database unchanged and still respond with their normal
redirects (detail view for update, listing page for delete). -/
theorem c4_update_delete_noop (db : DB) (uid : Option Nat) (tid : Nat)
    (f : TaskFields)
    (h : ∀ t ∈ db.tasks, (t.id == tid && taskOwnedBy uid t) = false) :
    updateOneTask db uid tid f none =
      (db, ok (.redirect ("/tasks/" ++ toString tid))) ∧
    deleteOneTask db uid tid none = (db, ok (.redirect "/")) := by
  constructor
  · rw [updateOneTask]
    have hdb : updateTasksDb db uid tid f = db := by
      rw [updateTasksDb]
      have hmap := list_map_fix (fun t : TaskRow =>
          if t.id == tid && taskOwnedBy uid t then
            { t with title := f.title, description := f.description,
                     category := f.category, contact := f.contact,
                     status := f.status }
          else t) db.tasks (fun a ha => by simp only [h a ha]; rfl)
      rw [hmap]
    rw [hdb]
  · rw [deleteOneTask]
    have hfil : db.tasks.filter
        (fun t => !(t.id == tid && taskOwnedBy uid t)) = db.tasks := by
      rw [List.filter_eq_self]
      intro a ha
      rw [h a ha]
      rfl
    rw [hfil]

/-- Witness for C4: identity 2 updating or deleting task 1 (owned by
identity 1) changes nothing and still redirects. -/
theorem c4_witness :
    updateOneTask exDb (some 2) 1 ⟨"t", "d", "c", "k", "done"⟩ none =
      (exDb, ok (.redirect "/tasks/1")) ∧
    deleteOneTask exDb (some 2) 1 none = (exDb, ok (.redirect "/")) :=
  c4_update_delete_noop exDb (some 2) 1 ⟨"t", "d", "c", "k", "done"⟩
    (by decide)

/-- Claim C10: the edit-form handler, given an id with no row owned by the
current identity, renders the edit view with an undefined task value
instead of any error or not-found response. -/
theorem c10_edit_undefined_task (db : DB) (uid : Option Nat) (tid : Nat)
    (h : ∀ t ∈ db.tasks, (t.id == tid && taskOwnedBy uid t) = false) :
    editOneTask db uid tid none =
      ok (.render 200 "pages/edit-view" (.editView none)) := by
  rw [editOneTask]
  have hfil : db.tasks.filter
      (fun t => t.id == tid && taskOwnedBy uid t) = [] := by
    rw [List.filter_eq_nil_iff]
    intro a ha
    rw [h a ha]
    simp
  rw [hfil]
  rfl

/-- Witness for C10: identity 2 requesting the edit form of task 1 (owned
by identity 1) gets the edit view with no task. -/
theorem c10_witness :
    editOneTask exDb (some 2) 1 none =
      ok (.render 200 "pages/edit-view" (.editView none)) :=
  c10_edit_undefined_task exDb (some 2) 1 (by decide)

/-- Claim C2, evaluated at a failing input: with no `sort_by` parameter the
listing query does return every task of identity 1, but in table order —
descending due dates here — because `ORDER BY $1` sorts by the bound
constant `'due'`, not by the `due` column; so the rows are not ascending
in the requested (defaulted) column. -/
theorem c2_order_by_bound_constant :
    getTasksRows exDb2 (some 1) none = exDb2.tasks ∧
    (∀ t ∈ exDb2.tasks, t ∈ getTasksRows exDb2 (some 1) none) ∧
    dueAscending (getTasksRows exDb2 (some 1) none) = false := by
  refine ⟨by decide, by decide, by decide⟩

/-- Claim C5: a successful registration inserts one new user row with the
next sequence id, sets the `user` cookie to the JSON of exactly that
returned row (so the cookie id equals the inserted row id), and redirects
to the listing page `/`. -/
theorem c5_register (db : DB) (username : String)
    (h : db.users.any (fun u => u.username == username) = false) :
    createUser db username none =
      ({ db with users := db.users ++ [⟨db.nextUserId, username⟩],
                 nextUserId := db.nextUserId + 1 },
       ⟨CookieAction.set (userJson ⟨db.nextUserId, username⟩),
        some (.redirect "/"), none⟩) ∧
    jsUserId (userJson ⟨db.nextUserId, username⟩) = some db.nextUserId := by
  constructor
  · rw [createUser]
    rw [h]
    rfl
  · rfl

/-- Witness for C5: registering `alice` against the concrete database. -/
theorem c5_witness :
    createUser exDb "alice" none =
      ({ exDb with users := exDb.users ++ [⟨3, "alice"⟩], nextUserId := 4 },
       ⟨CookieAction.set (userJson ⟨3, "alice"⟩),
        some (.redirect "/"), none⟩) ∧
    jsUserId (userJson ⟨3, "alice"⟩) = some 3 :=
  c5_register exDb "alice" (by decide)

/-- Claim C6: login with a username matching no user row renders the error
view with status 400 and leaves the cookie untouched; login with the
username of a stored row sets the cookie to that row's id and username and
redirects home. -/
theorem c6_login (db : DB) (n : String) :
    ((∀ u ∈ db.users, u.username ≠ n) →
      doLogin db n none =
        ⟨CookieAction.keep,
         some (.render 400 "pages/error-view"
           (.errorView (.str "User not found!"))),
         none⟩) ∧
    (∀ u, db.users.find? (fun x => x.username == n) = some u →
      u.username = n ∧ u ∈ db.users ∧
      doLogin db n none =
        ⟨CookieAction.set (userJson u), some (.redirect "/"), none⟩) := by
  constructor
  · intro hnone
    have hfind : db.users.find? (fun x => x.username == n) = none := by
      rw [List.find?_eq_none]
      intro x hx
      simp only [beq_iff_eq]
      exact hnone x hx
    rw [doLogin, hfind]
  · intro u hu
    refine ⟨?_, List.mem_of_find?_eq_some hu, ?_⟩
    · have := List.find?_some hu
      simpa using this
    · rw [doLogin, hu]

/-- Witness for C6: `nobody` is rejected with a 400 error view and no
cookie; `keith` gets the cookie of row 1 and a redirect home. -/
theorem c6_witness :
    doLogin exDb "nobody" none =
      ⟨CookieAction.keep,
       some (.render 400 "pages/error-view"
         (.errorView (.str "User not found!"))),
       none⟩ ∧
    doLogin exDb "keith" none =
      ⟨CookieAction.set (userJson ⟨1, "keith"⟩),
       some (.redirect "/"), none⟩ :=
  ⟨(c6_login exDb "nobody").1 (by decide),
   ((c6_login exDb "keith").2 ⟨1, "keith"⟩ (by decide)).2.2⟩

/-- Claim C7: the identity middleware always calls `next()` and always
mirrors the resolved identity into the render locals; an absent, empty or
malformed cookie resolves to the empty identity object with no numeric id,
and only the malformed case logs the decode warning. -/
theorem c7_identity_middleware :
    (∀ c, (identityMiddleware c).nextCalled = true ∧
          (identityMiddleware c).locals = (identityMiddleware c).user) ∧
    ((identityMiddleware .absent).user = .jobj [] ∧
     jsUserId (identityMiddleware .absent).user = none ∧
     (identityMiddleware .absent).warned = false) ∧
    ((identityMiddleware .emptyStr).user = .jobj [] ∧
     jsUserId (identityMiddleware .emptyStr).user = none) ∧
    (∀ s, (identityMiddleware (.malformed s)).user = .jobj [] ∧
          jsUserId (identityMiddleware (.malformed s)).user = none ∧
          (identityMiddleware (.malformed s)).warned = true) := by
  refine ⟨fun c => ?_, ⟨rfl, rfl, rfl⟩, ⟨rfl, rfl⟩, fun s => ⟨rfl, rfl, rfl⟩⟩
  cases c <;> exact ⟨rfl, rfl⟩

/-- Counterexample to claim C8: a driver error during the edit-form query
is never surfaced — `editOneTask` attaches no rejection handler, so no
response is sent at all, let alone a 500 error view. -/
theorem c8_counterexample :
    (editOneTask exDb (some 1) 1 (some "connection terminated")).sent = none ∧
    (editOneTask exDb (some 1) 1 (some "connection terminated")).escaped =
      some (.db "connection terminated") :=
  ⟨rfl, rfl⟩

/-- Claim C8 as amended: every route handler that issues a query recovers
a driver error and surfaces it as a status-500 rendering of the raw error
(directly or, for update, via the error middleware), except the edit-form
handler, whose missing rejection handler lets the error escape with no
response written. -/
theorem c8_db_error_recovery (db : DB) (uid : Option Nat) (tid : Nat)
    (f : TaskFields) (sort_by : Option String) (n : String) (e : DbErr) :
    getTasks db uid sort_by (some e) = handleError (.db e) ∧
    getOneTask db uid tid (some e) = handleError (.db e) ∧
    addTask db uid f (some e) = (db, handleError (.db e)) ∧
    deleteOneTask db uid tid (some e) = (db, handleError (.db e)) ∧
    updateOneTask db uid tid f (some e) = (db, handleError (.db e)) ∧
    createUser db n (some e) = (db, handleError (.db e)) ∧
    doLogin db n (some e) = handleError (.db e) ∧
    (editOneTask db uid tid (some e)).sent = none :=
  ⟨rfl, rfl, rfl, rfl, rfl, rfl, rfl, rfl⟩

/-- Counterexample to claim C9: a POST to an unknown path matches no
defined route, yet the catch-all does not respond either — it is
registered with `app.get` and matches only the GET method, so dispatch
finds no route at all and the framework default takes over. -/
theorem c9_counterexample :
    matchesDefinedRoute .POST ["nope"] = false ∧
    dispatch .POST ["nope"] ≠ some .catchAllR ∧
    dispatch .POST ["nope"] = none := by
  refine ⟨rfl, by decide, rfl⟩

/-- Claim C9 as amended: for every GET request whose path matches none of
the defined routes, dispatch falls through to the catch-all, which
responds with status 404 and a plain-text body. -/
theorem c9_get_catch_all (p : List String)
    (h : matchesDefinedRoute .GET p = false) :
    dispatch .GET p = some .catchAllR ∧
    catchAllResponse = ok (.text 404 "This route does not exist") := by
  rw [matchesDefinedRoute] at h
  simp only [routeOrder, List.filter, List.any, Bool.or_eq_false_iff,
    show ((RouteTag.catchAllR == RouteTag.catchAllR) = true) from rfl] at h
  obtain ⟨h1, h2, h3, h4, h5, h6, h7, h8, h9, h10, h11, h12, h13, -⟩ := h
  refine ⟨?_, rfl⟩
  rw [dispatch, routeOrder]
  rw [List.find?_cons_of_neg _ (by rw [h1]; exact Bool.false_ne_true)]
  rw [List.find?_cons_of_neg _ (by rw [h2]; exact Bool.false_ne_true)]
  rw [List.find?_cons_of_neg _ (by rw [h3]; exact Bool.false_ne_true)]
  rw [List.find?_cons_of_neg _ (by rw [h4]; exact Bool.false_ne_true)]
  rw [List.find?_cons_of_neg _ (by rw [h5]; exact Bool.false_ne_true)]
  rw [List.find?_cons_of_neg _ (by rw [h6]; exact Bool.false_ne_true)]
  rw [List.find?_cons_of_neg _ (by rw [h7]; exact Bool.false_ne_true)]
  rw [List.find?_cons_of_neg _ (by rw [h8]; exact Bool.false_ne_true)]
  rw [List.find?_cons_of_neg _ (by rw [h9]; exact Bool.false_ne_true)]
  rw [List.find?_cons_of_neg _ (by rw [h10]; exact Bool.false_ne_true)]
  rw [List.find?_cons_of_neg _ (by rw [h11]; exact Bool.false_ne_true)]
  rw [List.find?_cons_of_neg _ (by rw [h12]; exact Bool.false_ne_true)]
  rw [List.find?_cons_of_neg _ (by rw [h13]; exact Bool.false_ne_true)]
  rw [List.find?_cons_of_pos _ (by cases p <;> rfl)]

/-- Witness for the amended C9: a GET to an unknown top-level path reaches
the catch-all. -/
theorem c9_witness :
    dispatch .GET ["no-such-page"] = some .catchAllR ∧
    catchAllResponse = ok (.text 404 "This route does not exist") :=
  c9_get_catch_all ["no-such-page"] (by decide)
